import Mathlib

/-!
Verification of the primary/fallback database failover core of `src/app.py`.

The embedding models, faithfully to the source:
- the module-level flag `PRIMARY_DB_UP` (line 18, initialized `True`);
- the logging format `'%(asctime)s - %(message)s'` writing to `sql.log`
  (lines 12-13), so a log record is the timestamp, a separator and the
  message text;
- the SQLAlchemy event hook `before_cursor_execute` (lines 92-99), which
  fires before each cursor execution and logs the raw statement text
  (without parameters) whenever `PRIMARY_DB_UP` is false;
- `sync_data_from_fallback_to_primary` (lines 42-57): read the lines of
  `sql.log`, execute each stripped line, commit after the loop, then
  `f.truncate(0)`; any `Exception` is caught and only logged;
- `check_primary_db` (lines 21-39): probe the database; on success, if the
  flag was false run the synchronization, then set the flag `True`
  unconditionally; a `SQLAlchemyError` sets the flag `False` and emits one
  diagnostic only when the flag was previously true; exceptions of other
  types are not caught;
- the dynamic database configuration block of `create_app` (lines 64-72)
  and the module-level `app = create_app()` call (line 108).

Whether a statement execution against the database succeeds is abstracted
as an oracle `execOk : String → Bool` on the executed text. The hook's
re-logging of statements the monitor itself executes while the flag is
down (the probe text and replayed lines) only appends further records to
`sql.log`; these self-appends are not modelled, and no theorem below
depends on them.
-/

/-- A SQL statement as issued by application code: its text, its parameter
bindings, and whether it is a mutation (as opposed to a pure read). -/
structure Stmt where
  text : String
  params : List String
  isMutation : Bool
deriving Repr, DecidableEq

/-- One record written by `logging.info(message)` under
`format='%(asctime)s - %(message)s'` (src/app.py lines 12-13). -/
def logRecord (asctime : String) (message : String) : String :=
  asctime ++ " - " ++ message

/-- The `before_cursor_execute` hook (src/app.py lines 92-99): fires before
each cursor execution; when `PRIMARY_DB_UP` is false it appends the raw
statement text (parameters are not logged) to `sql.log`. -/
def before_cursor_execute (primary_up : Bool) (log : List String)
    (asctime : String) (statement : String) : List String :=
  if primary_up then log else log ++ [logRecord asctime statement]

/-- Result of executing one statement while in fallback: the hook has fired
(before the execution), then the execution either succeeded or failed. -/
structure ExecResult where
  log : List String
  ok : Bool
deriving Repr, DecidableEq

/-- Execution of one statement through the engine while `PRIMARY_DB_UP` is
false: the `before_cursor_execute` hook fires first, then the cursor
execution runs with outcome `ok`. -/
def fallbackExecute (log : List String) (st : Stmt) (asctime : String)
    (ok : Bool) : ExecResult :=
  { log := before_cursor_execute false log asctime st.text, ok := ok }

/-- A sequence of statements executed while in fallback, each with its
wall-clock `asctime` and its execution outcome; returns the final
`sql.log` contents. -/
def fallbackRun : List String → List (Stmt × String × Bool) → List String
  | log, [] => log
  | log, item :: rest =>
      fallbackRun (fallbackExecute log item.1 item.2.1 item.2.2).log rest

/-- Python's `str.strip()`: remove leading and trailing whitespace. -/
def strip (s : String) : String :=
  String.mk
    (((s.data.dropWhile Char.isWhitespace).reverse.dropWhile
        Char.isWhitespace).reverse)

/-- Python's `str.startswith(pre)`. -/
def startswith (s pre : String) : Bool :=
  s.data.take pre.data.length == pre.data

/-- What replay executes for a stored record: `line.strip()`
(src/app.py line 51). -/
def readBack (record : String) : String :=
  strip record

/-- The loop body of `sync_data_from_fallback_to_primary` (src/app.py
lines 49-51): execute each stripped line in order; the first failing
execution raises, aborting the loop before `commit` is reached. Returns
the list of executed statements on full success. -/
def replayLines (execOk : String → Bool) : List String → Option (List String)
  | [] => some []
  | line :: rest =>
      if execOk (strip line) then
        (replayLines execOk rest).map (fun stmts => strip line :: stmts)
      else
        none

/-- Global application state: the `PRIMARY_DB_UP` flag, the lines of
`sql.log`, the statements committed on the primary session's store, the
configured `SQLALCHEMY_DATABASE_URI`, and the number of
"Primary database is down" diagnostic events emitted so far. -/
structure AppState where
  primary_up : Bool
  log : List String
  primaryDb : List String
  uri : String
  downEvents : Nat
deriving Repr, DecidableEq

/-- `sync_data_from_fallback_to_primary` (src/app.py lines 42-57): read the
lines of `sql.log`, execute each stripped line, `commit`, then
`f.truncate(0)`. Any exception is caught (`except Exception`), logged and
swallowed: the log is not truncated, `commit` is never reached so nothing
becomes visible on the primary, and the function returns normally with no
success/failure indication. -/
def sync_data_from_fallback_to_primary (execOk : String → Bool)
    (s : AppState) : AppState :=
  match replayLines execOk s.log with
  | some stmts => { s with primaryDb := s.primaryDb ++ stmts, log := [] }
  | none => s

/-- Outcome of the liveness probe `db.session.execute('SELECT 1')` inside
`check_primary_db`: success, a raised `SQLAlchemyError`, or a raised
exception of any other type. -/
inductive Probe where
  | ok
  | sqlError
  | otherError
deriving Repr, DecidableEq

/-- `check_primary_db` (src/app.py lines 21-39). On probe success: if
`PRIMARY_DB_UP` was false, run `sync_data_from_fallback_to_primary`; then
set `PRIMARY_DB_UP = True` unconditionally (line 35 runs whether or not
the synchronization succeeded). On a `SQLAlchemyError`: emit one
diagnostic if the flag was previously true, and set it false. The
`except` clause names only `SQLAlchemyError`, so an exception of any
other type propagates to the caller (modelled as `Except.error`). -/
def check_primary_db (execOk : String → Bool) (p : Probe) (s : AppState) :
    Except Unit AppState :=
  match p with
  | .ok =>
      let s1 := if s.primary_up then s
                else sync_data_from_fallback_to_primary execOk s
      .ok { s1 with primary_up := true }
  | .sqlError =>
      .ok { s with
              primary_up := false
              downEvents := s.downEvents + (if s.primary_up then 1 else 0) }
  | .otherError => .error ()

/-- One scheduler tick: the scheduler invokes `check_primary_db`; an
exception escaping the job leaves the module state as it was (the probe
raises before any state mutation). -/
def monitorStep (execOk : String → Bool) (p : Probe) (s : AppState) :
    AppState :=
  match check_primary_db execOk p s with
  | .ok s1 => s1
  | .error _ => s

/-- A run of successive scheduler ticks with the given probe outcomes. -/
def runMonitor (execOk : String → Bool) : List Probe → AppState → AppState
  | [], s => s
  | p :: ps, s => runMonitor execOk ps (monitorStep execOk p s)

/-- Number of PRIMARY→FALLBACK flag transitions over a run. -/
def downTransitions (execOk : String → Bool) :
    List Probe → AppState → Nat
  | [], _ => 0
  | p :: ps, s =>
      let s1 := monitorStep execOk p s
      (if s.primary_up && !s1.primary_up then 1 else 0)
        + downTransitions execOk ps s1

/-- Number of FALLBACK→PRIMARY flag transitions over a run. -/
def upTransitions (execOk : String → Bool) :
    List Probe → AppState → Nat
  | [], _ => 0
  | p :: ps, s =>
      let s1 := monitorStep execOk p s
      (if !s.primary_up && s1.primary_up then 1 else 0)
        + upTransitions execOk ps s1

/-- The `if PRIMARY_DB_UP:` branch of the dynamic database configuration of
`create_app` (src/app.py lines 65-69): take `DATABASE_URL` from the
environment with default `sqlite:///blushy.db`, rewriting a
`postgres://` scheme prefix to `postgresql://`. -/
def primary_database_url (database_url_env : Option String) : String :=
  let database_url := database_url_env.getD "sqlite:///blushy.db"
  if startswith database_url "postgres://" then
    "postgresql://" ++ String.mk (database_url.data.drop 11)
  else
    database_url

/-- The dynamic database configuration of `create_app` (src/app.py
lines 64-72): the configured `SQLALCHEMY_DATABASE_URI` as a function of
the value of `PRIMARY_DB_UP` at the moment `create_app` runs. -/
def create_app (primary_up : Bool) (database_url_env : Option String) :
    String :=
  if primary_up then primary_database_url database_url_env
  else "sqlite:///fallback.db"

/-- Module import state (src/app.py lines 18 and 108): `PRIMARY_DB_UP` is
initialized `True` and `app = create_app()` runs once at import, while
the flag is still `True`. -/
def initialState (database_url_env : Option String) : AppState :=
  { primary_up := true
    log := []
    primaryDb := []
    uri := create_app true database_url_env
    downEvents := 0 }

/-- `sync_data_from_fallback_to_primary` in the presence of request
traffic: `during` are the records appended to `sql.log` by concurrent
fallback writes between the read loop and the `f.truncate(0)`;
`truncate(0)` (src/app.py line 54) empties the whole file, whatever it
contains by then. Returns the final `sql.log` contents. -/
def sync_with_concurrent_appends (execOk : String → Bool)
    (log during : List String) : List String :=
  match replayLines execOk log with
  | some _ => []
  | none => log ++ during

/-- The property claimed by the spec for the Store Router (claim C2),
stated in the spec's words: starting from an empty log, a statement
executed while in fallback ends up in the Write Log if and only if it is
a mutation and its fallback execution succeeded. -/
def loggedIffCommittedMutation (st : Stmt) (ok : Bool) : Prop :=
  ((fallbackExecute [] st "2025-11-03 10:00:00,000" ok).log ≠ [])
    ↔ (st.isMutation = true ∧ ok = true)

/-- The routing property claimed by the spec (claim C6), stated in the
spec's words, at a state: while the health flag designates the fallback,
data-access calls execute against the fallback store
(`sqlite:///fallback.db`, src/app.py line 72). -/
def routes_by_current_health (s : AppState) : Prop :=
  s.primary_up = false → s.uri = "sqlite:///fallback.db"

/-! ### Helper lemmas -/

theorem sync_primary_up (execOk : String → Bool) (s : AppState) :
    (sync_data_from_fallback_to_primary execOk s).primary_up
      = s.primary_up := by
  unfold sync_data_from_fallback_to_primary
  cases replayLines execOk s.log <;> rfl

theorem sync_uri (execOk : String → Bool) (s : AppState) :
    (sync_data_from_fallback_to_primary execOk s).uri = s.uri := by
  unfold sync_data_from_fallback_to_primary
  cases replayLines execOk s.log <;> rfl

theorem sync_downEvents (execOk : String → Bool) (s : AppState) :
    (sync_data_from_fallback_to_primary execOk s).downEvents
      = s.downEvents := by
  unfold sync_data_from_fallback_to_primary
  cases replayLines execOk s.log <;> rfl

theorem monitorStep_ok_primary (execOk : String → Bool) (s : AppState) :
    (monitorStep execOk Probe.ok s).primary_up = true := rfl

theorem monitorStep_ok_uri (execOk : String → Bool) (s : AppState) :
    (monitorStep execOk Probe.ok s).uri = s.uri := by
  cases hp : s.primary_up <;>
    simp [monitorStep, check_primary_db, hp, sync_uri]

theorem monitorStep_ok_downEvents (execOk : String → Bool) (s : AppState) :
    (monitorStep execOk Probe.ok s).downEvents = s.downEvents := by
  cases hp : s.primary_up <;>
    simp [monitorStep, check_primary_db, hp, sync_downEvents]

theorem monitorStep_uri (execOk : String → Bool) (p : Probe) (s : AppState) :
    (monitorStep execOk p s).uri = s.uri := by
  cases p with
  | ok => exact monitorStep_ok_uri execOk s
  | sqlError => rfl
  | otherError => rfl

theorem runMonitor_uri (execOk : String → Bool) (ps : List Probe)
    (s : AppState) : (runMonitor execOk ps s).uri = s.uri := by
  induction ps generalizing s with
  | nil => rfl
  | cons p ps ih =>
      rw [runMonitor, ih, monitorStep_uri]

theorem monitorStep_sqlError_down (execOk : String → Bool) (s : AppState)
    (h : s.primary_up = false) :
    monitorStep execOk Probe.sqlError s = s := by
  obtain ⟨pu, lg, pdb, uri, ev⟩ := s
  simp only at h
  subst h
  simp [monitorStep, check_primary_db]

theorem run_fail_then_ok (execOk : String → Bool) (M : Nat) (s : AppState)
    (h : s.primary_up = false) :
    runMonitor execOk (List.replicate M Probe.sqlError ++ [Probe.ok]) s
      = monitorStep execOk Probe.ok s
  ∧ downTransitions execOk (List.replicate M Probe.sqlError ++ [Probe.ok]) s
      = 0
  ∧ upTransitions execOk (List.replicate M Probe.sqlError ++ [Probe.ok]) s
      = 1 := by
  induction M generalizing s with
  | zero =>
      refine ⟨rfl, ?_, ?_⟩
      · simp [downTransitions, h]
      · simp [upTransitions, h, monitorStep_ok_primary]
  | succ M ih =>
      have hstep : monitorStep execOk Probe.sqlError s = s :=
        monitorStep_sqlError_down execOk s h
      obtain ⟨ih1, ih2, ih3⟩ := ih s h
      refine ⟨?_, ?_, ?_⟩
      · simp only [List.replicate_succ, List.cons_append, runMonitor]
        rw [hstep]
        exact ih1
      · simp only [List.replicate_succ, List.cons_append, downTransitions]
        rw [hstep]
        simp only [List.append_eq] at ih2 ⊢
        simp [h, ih2]
      · simp only [List.replicate_succ, List.cons_append, upTransitions]
        rw [hstep]
        simp only [List.append_eq] at ih3 ⊢
        simp [h, ih3]

/-! ### Claim theorems -/

/-- C1 (code bug): a replay that fails on its only entry leaves the log and
the primary untouched (`replayLines` returns `none`, nothing is
committed), yet `check_primary_db` still sets `PRIMARY_DB_UP` to `True`;
and because the flag is then `True`, subsequent successful probes never
re-run the synchronization, so the logged entry is never replayed. The
spec says HealthState remains FALLBACK and the next cycle retries. -/
theorem C1_failed_replay_promotes_and_never_retries :
    replayLines (fun _ => false)
        ["2025-11-03 10:00:00,000 - INSERT INTO messages VALUES (1)"] = none
  ∧ check_primary_db (fun _ => false) Probe.ok
        ⟨false, ["2025-11-03 10:00:00,000 - INSERT INTO messages VALUES (1)"],
          [], "sqlite:///blushy.db", 1⟩
      = Except.ok
        ⟨true, ["2025-11-03 10:00:00,000 - INSERT INTO messages VALUES (1)"],
          [], "sqlite:///blushy.db", 1⟩
  ∧ runMonitor (fun _ => false) [Probe.ok, Probe.ok]
        ⟨false, ["2025-11-03 10:00:00,000 - INSERT INTO messages VALUES (1)"],
          [], "sqlite:///blushy.db", 1⟩
      = ⟨true, ["2025-11-03 10:00:00,000 - INSERT INTO messages VALUES (1)"],
          [], "sqlite:///blushy.db", 1⟩ :=
  ⟨rfl, rfl, rfl⟩

/-- C2 counterexample: a pure read (`SELECT`), executed successfully while
the flag is down, is appended to the Write Log by the
`before_cursor_execute` hook, refuting "appended if and only if it is a
mutation and its fallback execution succeeded". -/
theorem C2_counterexample :
    ¬ loggedIffCommittedMutation
        ⟨"SELECT messages.id FROM messages", [], false⟩ true := by
  unfold loggedIffCommittedMutation
  decide

/-- C2 (amended): every statement executed while the flag is down — pure
read or mutation, whether its execution succeeds or fails — is appended
to the Write Log, and the append happens before (not after) the
execution, in the order the statements were issued. -/
theorem C2_amended_every_statement_logged (log : List String)
    (items : List (Stmt × String × Bool)) :
    fallbackRun log items
      = log ++ items.map (fun item => logRecord item.2.1 item.1.text) := by
  induction items generalizing log with
  | nil => simp [fallbackRun]
  | cons item rest ih =>
      simp [fallbackRun, fallbackExecute, before_cursor_execute, ih]

/-- C3 (code bug): after a replay that fails on its second entry
(`replayLines` returns `none`, nothing is committed, the log still holds
both entries), `check_primary_db` nevertheless returns a state with
`primary_up = true`: PRIMARY is reachable without a preceding successful
replay, refuting the claimed invariant. -/
theorem C3_primary_without_successful_replay :
    check_primary_db
        (fun t => !(t == "t2 - INSERT INTO messages VALUES (2)")) Probe.ok
        ⟨false, ["t1 - INSERT INTO messages VALUES (1)",
                 "t2 - INSERT INTO messages VALUES (2)"],
          [], "sqlite:///blushy.db", 1⟩
      = Except.ok
        ⟨true, ["t1 - INSERT INTO messages VALUES (1)",
                "t2 - INSERT INTO messages VALUES (2)"],
          [], "sqlite:///blushy.db", 1⟩ :=
  rfl

/-- C4 (code bug): Write Log records do not round-trip. A record is the
statement text prefixed by the logging timestamp, so what replay reads
back (`line.strip()`) differs from the original statement text; and two
statements that differ only in their parameter bindings produce the same
record, because parameters are never written to the log. -/
theorem C4_roundtrip_fails :
    readBack (logRecord "2025-11-03 10:00:00,000"
        "INSERT INTO messages VALUES (?)")
      ≠ "INSERT INTO messages VALUES (?)"
  ∧ logRecord "2025-11-03 10:00:00,000"
        (Stmt.mk "INSERT INTO messages VALUES (?)" ["hello"] true).text
      = logRecord "2025-11-03 10:00:00,000"
        (Stmt.mk "INSERT INTO messages VALUES (?)" ["bye"] true).text :=
  ⟨by decide, rfl⟩

/-- C5 counterexample: with one snapshotted entry and one entry appended
concurrently during a successful replay, `f.truncate(0)` leaves an empty
file rather than the concurrently appended entry, refuting "clears
exactly the entries that were in the drained snapshot". -/
theorem C5_counterexample :
    sync_with_concurrent_appends (fun _ => true)
        ["2025-11-03 10:00:00,000 - INSERT INTO messages VALUES (1)"]
        ["2025-11-03 10:00:05,000 - INSERT INTO messages VALUES (2)"]
      ≠ ["2025-11-03 10:00:05,000 - INSERT INTO messages VALUES (2)"] := by
  decide

/-- C5 (amended): a successful replay truncates the entire log file to
empty, clearing the snapshotted entries and, with them, every entry
appended to the Write Log after the snapshot was taken; concurrent
fallback writes during an in-progress replay are lost. -/
theorem C5_amended_truncate_loses_concurrent_appends
    (execOk : String → Bool) (log during : List String)
    (h : (replayLines execOk log).isSome = true) :
    sync_with_concurrent_appends execOk log during = []
  ∧ ∀ d ∈ during, d ∉ sync_with_concurrent_appends execOk log during := by
  obtain ⟨v, hv⟩ := Option.isSome_iff_exists.mp h
  constructor <;> simp [sync_with_concurrent_appends, hv]

/-- Witness for the amended C5 at a concrete successful replay with one
concurrent append. -/
theorem C5_amended_witness :
    ((replayLines (fun _ => true)
        ["2025-11-03 10:00:00,000 - INSERT INTO messages VALUES (1)"]).isSome
      = true)
  ∧ (sync_with_concurrent_appends (fun _ => true)
        ["2025-11-03 10:00:00,000 - INSERT INTO messages VALUES (1)"]
        ["2025-11-03 10:00:05,000 - INSERT INTO messages VALUES (2)"] = []
     ∧ ∀ d ∈ ["2025-11-03 10:00:05,000 - INSERT INTO messages VALUES (2)"],
        d ∉ sync_with_concurrent_appends (fun _ => true)
            ["2025-11-03 10:00:00,000 - INSERT INTO messages VALUES (1)"]
            ["2025-11-03 10:00:05,000 - INSERT INTO messages VALUES (2)"]) :=
  ⟨by decide,
   C5_amended_truncate_loses_concurrent_appends (fun _ => true)
     ["2025-11-03 10:00:00,000 - INSERT INTO messages VALUES (1)"]
     ["2025-11-03 10:00:05,000 - INSERT INTO messages VALUES (2)"]
     (by decide)⟩

/-- C6 counterexample: after one failed probe from the import-time state,
the flag designates the fallback but the configured URI is still the
primary one chosen at process start, so calls do not execute against the
newly designated store. -/
theorem C6_counterexample :
    ¬ routes_by_current_health
        (monitorStep (fun _ => true) Probe.sqlError (initialState none)) := by
  unfold routes_by_current_health
  decide

/-- C6 (amended): the database URI is fixed when `create_app` runs; no
monitor transition ever replaces it, so after a runtime PRIMARY/FALLBACK
transition all subsequent calls still execute against the handle fixed
at process start. -/
theorem C6_amended_handle_fixed_at_start (execOk : String → Bool)
    (ps : List Probe) (s : AppState) :
    (runMonitor execOk ps s).uri = s.uri :=
  runMonitor_uri execOk ps s

/-- C7 counterexample: an exception of a type other than `SQLAlchemyError`
raised by the probe propagates out of `check_primary_db` instead of
being treated as a failed probe. -/
theorem C7_counterexample :
    check_primary_db (fun _ => true) Probe.otherError (initialState none)
      = Except.error () :=
  rfl

/-- C7 (amended): an exception of type `SQLAlchemyError` raised by the
probe is treated as a failed probe (transitioning PRIMARY to FALLBACK,
with a diagnostic only on the edge) and is not propagated; an exception
of any other type propagates to the caller. -/
theorem C7_amended_only_sqlalchemyerror_caught (execOk : String → Bool)
    (s : AppState) :
    check_primary_db execOk Probe.sqlError s
      = Except.ok { s with
          primary_up := false
          downEvents := s.downEvents + (if s.primary_up then 1 else 0) }
  ∧ check_primary_db execOk Probe.otherError s = Except.error () :=
  ⟨rfl, rfl⟩

/-- C8: starting from any state with the flag up, a run of N ≥ 1
consecutive failed probes followed by one successful probe emits exactly
one "primary database is down" diagnostic (on the PRIMARY→FALLBACK edge,
none on the subsequent failed probes) and produces exactly one flag
transition in each direction. -/
theorem C8_single_edge_event_and_transitions (execOk : String → Bool)
    (N : Nat) (s : AppState) (hN : 1 ≤ N) (hs : s.primary_up = true) :
    (runMonitor execOk (List.replicate N Probe.sqlError ++ [Probe.ok])
        s).downEvents = s.downEvents + 1
  ∧ downTransitions execOk (List.replicate N Probe.sqlError ++ [Probe.ok]) s
      = 1
  ∧ upTransitions execOk (List.replicate N Probe.sqlError ++ [Probe.ok]) s
      = 1 := by
  obtain ⟨M, rfl⟩ : ∃ M, N = M + 1 :=
    ⟨N - 1, (Nat.succ_pred_eq_of_pos hN).symm⟩
  have hs1eq : monitorStep execOk Probe.sqlError s
      = { s with primary_up := false, downEvents := s.downEvents + 1 } := by
    simp [monitorStep, check_primary_db, hs]
  have h1 : (monitorStep execOk Probe.sqlError s).primary_up = false := by
    rw [hs1eq]
  obtain ⟨hrun, hdown, hup⟩ :=
    run_fail_then_ok execOk M (monitorStep execOk Probe.sqlError s) h1
  refine ⟨?_, ?_, ?_⟩
  · simp only [List.replicate_succ, List.cons_append, runMonitor]
    simp only [List.append_eq] at hrun ⊢
    rw [hrun, monitorStep_ok_downEvents, hs1eq]
  · simp only [List.replicate_succ, List.cons_append, downTransitions]
    simp [hs, h1, hdown]
  · simp only [List.replicate_succ, List.cons_append, upTransitions]
    simp [hs, hup]

/-- Witness for C8 at N = 2 from the import-time state. -/
theorem C8_witness :
    (1 ≤ 2 ∧ (initialState none).primary_up = true)
  ∧ ((runMonitor (fun _ => true)
        (List.replicate 2 Probe.sqlError ++ [Probe.ok])
        (initialState none)).downEvents = (initialState none).downEvents + 1
     ∧ downTransitions (fun _ => true)
        (List.replicate 2 Probe.sqlError ++ [Probe.ok]) (initialState none)
        = 1
     ∧ upTransitions (fun _ => true)
        (List.replicate 2 Probe.sqlError ++ [Probe.ok]) (initialState none)
        = 1) :=
  ⟨⟨by decide, rfl⟩,
   C8_single_edge_event_and_transitions (fun _ => true) 2 (initialState none)
     (by decide) rfl⟩

/-- C9: `PRIMARY_DB_UP` is `True` when `create_app` runs at module import,
so the configured URI comes from the primary branch of the dynamic
database configuration; and no monitor activity afterwards ever changes
it for the lifetime of the process. -/
theorem C9_uri_fixed_for_process_lifetime (database_url_env : Option String)
    (execOk : String → Bool) (ps : List Probe) :
    (initialState database_url_env).uri
      = primary_database_url database_url_env
  ∧ (runMonitor execOk ps (initialState database_url_env)).uri
      = primary_database_url database_url_env := by
  constructor
  · rfl
  · rw [runMonitor_uri]
    rfl

/-- C10: `sync_data_from_fallback_to_primary` catches every exception and
returns normally with no success/failure indication: when the replay
body fails it returns the state unchanged, and its caller
`check_primary_db` ends with `primary_up = true` either way — the flag
seen by the caller is identical for a failing and a succeeding replay,
so the caller cannot distinguish them. -/
theorem C10_caller_cannot_distinguish (execOk execOk' : String → Bool)
    (s : AppState) (h : s.primary_up = false) :
    (replayLines execOk s.log = none →
        sync_data_from_fallback_to_primary execOk s = s)
  ∧ (check_primary_db execOk Probe.ok s).map AppState.primary_up
      = Except.ok true
  ∧ (check_primary_db execOk Probe.ok s).map AppState.primary_up
      = (check_primary_db execOk' Probe.ok s).map AppState.primary_up := by
  refine ⟨?_, ?_, ?_⟩
  · intro hnone
    simp [sync_data_from_fallback_to_primary, hnone]
  · simp [check_primary_db, h, Except.map]
  · simp [check_primary_db, h, Except.map]

/-- Witness for C10 at a fallback state with one logged entry, comparing a
replay that fails everywhere with one that succeeds everywhere. -/
theorem C10_witness :
    ((⟨false, ["2025-11-03 10:00:00,000 - INSERT INTO messages VALUES (1)"],
        [], "sqlite:///blushy.db", 1⟩ : AppState).primary_up = false)
  ∧ ((replayLines (fun _ => false)
        (⟨false, ["2025-11-03 10:00:00,000 - INSERT INTO messages VALUES (1)"],
          [], "sqlite:///blushy.db", 1⟩ : AppState).log = none →
        sync_data_from_fallback_to_primary (fun _ => false)
          ⟨false, ["2025-11-03 10:00:00,000 - INSERT INTO messages VALUES (1)"],
            [], "sqlite:///blushy.db", 1⟩
          = ⟨false, ["2025-11-03 10:00:00,000 - INSERT INTO messages VALUES (1)"],
              [], "sqlite:///blushy.db", 1⟩)
     ∧ (check_primary_db (fun _ => false) Probe.ok
          ⟨false, ["2025-11-03 10:00:00,000 - INSERT INTO messages VALUES (1)"],
            [], "sqlite:///blushy.db", 1⟩).map AppState.primary_up
        = Except.ok true
     ∧ (check_primary_db (fun _ => false) Probe.ok
          ⟨false, ["2025-11-03 10:00:00,000 - INSERT INTO messages VALUES (1)"],
            [], "sqlite:///blushy.db", 1⟩).map AppState.primary_up
        = (check_primary_db (fun _ => true) Probe.ok
          ⟨false, ["2025-11-03 10:00:00,000 - INSERT INTO messages VALUES (1)"],
            [], "sqlite:///blushy.db", 1⟩).map AppState.primary_up) :=
  ⟨rfl,
   C10_caller_cannot_distinguish (fun _ => false) (fun _ => true)
     ⟨false, ["2025-11-03 10:00:00,000 - INSERT INTO messages VALUES (1)"],
       [], "sqlite:///blushy.db", 1⟩ rfl⟩
